import Mathlib

/-!
Verification of the adaptive-difficulty core of the learning-ai-agents
repository: a shallow embedding of `adk/difficulty.py`, `adk/scaffolding.py`
and the mastery-update part of `adk/storage.py`, followed by theorems about
the embedded functions.

Conventions of the embedding:
* Python floats and float arithmetic are modelled as exact rationals (`ℚ`);
  the numeric literals of the source (0.60, 0.85, 0.50, 0.95, 0.30, 0.05,
  0.9, 1.1) become the corresponding rationals.
* Python ints are `ℤ` (no overflow in CPython), counters are `ℕ`.
* Python dict records are structures whose fields carry the `dict.get`
  defaults the source applies.
* Fallible code (a possible `ZeroDivisionError`) returns `Except String _`.
* Effectful collaborator calls (the sqlite lookup inside
  `get_concept_complexity`) are passed in as an explicit outcome value.
-/

namespace LearningAgents

/-- One performance record, as built by `_record_performance` in
`adk/difficulty.py` (the dict with keys score, response_time_ms, hints_used,
difficulty_level, concept_tested, question_type, in_optimal_zone). -/
structure PerfRec where
  score : ℚ
  response_time_ms : ℤ
  hints_used : ℕ
  difficulty_level : ℤ
  concept_tested : String
  question_type : String
  in_optimal_zone : Bool
deriving Repr, DecidableEq

/-- Python `int(x)` truncation toward zero on a rational. -/
def pyInt (q : ℚ) : ℤ := if 0 ≤ q then ⌊q⌋ else ⌈q⌉

/-- The streak loop of `calculate_performance_trend`
(`difficulty.py` lines 287-295):
`for score in scores: if score >= 0.60: consecutive_correct += 1; break
 else: consecutive_incorrect += 1`.
Returns `(consecutive_correct, consecutive_incorrect)`. -/
def streakCounts : List ℚ → ℕ × ℕ
  | [] => (0, 0)
  | s :: rest =>
    if 3/5 ≤ s then (1, 0)
    else ((streakCounts rest).1, (streakCounts rest).2 + 1)

/-- The score-trend computation of `calculate_performance_trend`
(first half of the window vs second half, ±0.05 band). -/
def scoreTrendOf (scores : List ℚ) : String :=
  if 2 ≤ scores.length then
    let mid := scores.length / 2
    let first_half_avg := (scores.take mid).sum / (mid : ℚ)
    let second_half_avg := (scores.drop mid).sum / ((scores.length - mid : ℕ) : ℚ)
    if first_half_avg + 1/20 < second_half_avg then "improving"
    else if second_half_avg < first_half_avg - 1/20 then "declining"
    else "stable"
  else "stable"

/-- The time-trend computation of `calculate_performance_trend`
(requires at least 2 times, all positive; 0.9 / 1.1 bands). -/
def timeTrendOf (times : List ℤ) : String :=
  if 2 ≤ times.length ∧ ∀ t ∈ times, 0 < t then
    let mid := times.length / 2
    let first_half_time := ((times.take mid).sum : ℚ) / (mid : ℚ)
    let second_half_time := ((times.drop mid).sum : ℚ) / ((times.length - mid : ℕ) : ℚ)
    if second_half_time < first_half_time * (9/10) then "faster"
    else if first_half_time * (11/10) < second_half_time then "slower"
    else "stable"
  else "stable"

/-- The `PerformanceTrend` dataclass of `adk/difficulty.py`. -/
structure PerformanceTrend where
  user_id : String
  window_size : ℕ
  avg_score : ℚ
  score_trend : String
  avg_response_time_ms : ℤ
  time_trend : String
  avg_hints_used : ℚ
  consecutive_correct : ℕ
  consecutive_incorrect : ℕ
  optimal_zone_ratio : ℚ
deriving Repr, DecidableEq

/-- `calculate_performance_trend(records, user_id, window_size)` from
`adk/difficulty.py` (the Python default for `window_size` is 5; callers in
this file pass it explicitly). Records are most-recent-first. A nonempty
`records` list truncated to an empty window (`window_size = 0`) makes the
Python code divide by `len(scores) = 0`, which raises `ZeroDivisionError`;
that is the `.error` case. -/
def calculate_performance_trend (records : List PerfRec) (user_id : String)
    (window_size : ℕ) : Except String PerformanceTrend :=
  if records.isEmpty then
    .ok { user_id := user_id, window_size := 0, avg_score := 0,
          score_trend := "stable", avg_response_time_ms := 0,
          time_trend := "stable", avg_hints_used := 0,
          consecutive_correct := 0, consecutive_incorrect := 0,
          optimal_zone_ratio := 0 }
  else
    let recs := records.take window_size
    let scores := recs.map PerfRec.score
    let times := recs.map PerfRec.response_time_ms
    let hints := recs.map PerfRec.hints_used
    if scores.length = 0 then
      .error "ZeroDivisionError: division by zero"
    else
      let avg_score := scores.sum / (scores.length : ℚ)
      let avg_time : ℚ := if times.isEmpty then 0 else (times.sum : ℚ) / (times.length : ℚ)
      let avg_hints : ℚ := (hints.sum : ℚ) / (hints.length : ℚ)
      let streaks := streakCounts scores
      let optimal_count := scores.countP (fun s => decide (3/5 ≤ s ∧ s ≤ 17/20))
      .ok { user_id := user_id,
            window_size := recs.length,
            avg_score := avg_score,
            score_trend := scoreTrendOf scores,
            avg_response_time_ms := pyInt avg_time,
            time_trend := timeTrendOf times,
            avg_hints_used := avg_hints,
            consecutive_correct := streaks.1,
            consecutive_incorrect := streaks.2,
            optimal_zone_ratio := (optimal_count : ℚ) / (scores.length : ℚ) }

/-- A concrete record shape used to instantiate theorems at sample inputs. -/
def sampleRec (s : ℚ) : PerfRec :=
  { score := s, response_time_ms := 10000, hints_used := 0,
    difficulty_level := 3, concept_tested := "photosynthesis",
    question_type := "scenario",
    in_optimal_zone := decide ((3/5 : ℚ) ≤ s ∧ s ≤ 17/20) }

/-- Round half to even on a rational (the rounding of Python `format`). -/
def roundHalfEven (q : ℚ) : ℤ :=
  if q - ⌊q⌋ = 1/2 then (if 2 ∣ ⌊q⌋ then ⌊q⌋ else ⌊q⌋ + 1) else round q

/-- Python `f"{q:.0%}"`: the value times 100, rounded to 0 decimal places
(half to even), with a percent sign appended. -/
def formatPct (q : ℚ) : String := toString (roundHalfEven (q * 100)) ++ "%"

/-- `get_concept_complexity(concept_name, user_id)` from `adk/difficulty.py`,
with the sqlite fetch passed in as its outcome: `.error` when the lookup
raises, `.ok none` when no row matches, `.ok (some none)` when the row's
complexity column is NULL, `.ok (some (some c))` when it holds `c`.
Source: `return row[0] if row and row[0] is not None else 3`, with the
whole body wrapped in `try: ... except Exception: return 3`. -/
def get_concept_complexity (fetch : Except Unit (Option (Option ℤ))) : ℤ :=
  match fetch with
  | .ok (some (some c)) => c
  | .ok (some none) => 3
  | .ok none => 3
  | .error _ => 3

/-- The complexity used by `calculate_difficulty_adjustment`:
`complexity = 3; if concept_name: complexity = get_concept_complexity(...)`
(an empty concept name is falsy in Python). -/
def resolved_complexity (concept_name : String)
    (fetch : Except Unit (Option (Option ℤ))) : ℤ :=
  if concept_name = "" then 3 else get_concept_complexity fetch

/-- `increase_threshold = min(0.85 * (complexity / 3.0), 0.95)`
(`difficulty.py` lines 360-365). -/
def increase_threshold (complexity : ℤ) : ℚ :=
  min ((17/20) * ((complexity : ℚ) / 3)) (19/20)

/-- `decrease_threshold = max(0.50 * (complexity / 3.0), 0.30)`
(`difficulty.py` lines 360-366). -/
def decrease_threshold (complexity : ℤ) : ℚ :=
  max ((1/2) * ((complexity : ℚ) / 3)) (3/10)

/-- The `DifficultyAdjustment` dataclass of `adk/difficulty.py`
(the `timestamp` field, a wall-clock default, is omitted). -/
structure DifficultyAdjustment where
  user_id : String
  session_id : String
  previous_level : ℤ
  new_level : ℤ
  adjustment_type : String
  reason : String
  triggered_by : String
  scaffolding_recommended : Bool
deriving Repr, DecidableEq

/-- `calculate_difficulty_adjustment(current_level, performance_records,
user_id, session_id, concept_name)` from `adk/difficulty.py` lines 315-409,
with the storage fetch behind `get_concept_complexity` passed as `fetch`.
Records are most-recent-first. -/
def calculate_difficulty_adjustment (current_level : ℤ)
    (performance_records : List PerfRec) (user_id session_id : String)
    (concept_name : String) (fetch : Except Unit (Option (Option ℤ))) :
    DifficultyAdjustment :=
  if performance_records.length < 2 then
    { user_id := user_id, session_id := session_id,
      previous_level := current_level, new_level := current_level,
      adjustment_type := "maintain",
      reason := "Insufficient data for adjustment",
      triggered_by := "answer", scaffolding_recommended := false }
  else
    let complexity := resolved_complexity concept_name fetch
    let inc_thr := increase_threshold complexity
    let dec_thr := decrease_threshold complexity
    if 3 ≤ performance_records.length ∧
        ∀ r ∈ performance_records.take 3, inc_thr ≤ r.score ∧ r.hints_used = 0 then
      let new_level := min (current_level + 1) 6
      { user_id := user_id, session_id := session_id,
        previous_level := current_level, new_level := new_level,
        adjustment_type := if current_level < new_level then "increase" else "maintain",
        reason := "3 consecutive scores ≥" ++ formatPct inc_thr ++ " with no hints",
        triggered_by := "answer", scaffolding_recommended := false }
    else if ∀ r ∈ performance_records.take 2, r.score < dec_thr then
      let new_level := max (current_level - 1) 1
      { user_id := user_id, session_id := session_id,
        previous_level := current_level, new_level := new_level,
        adjustment_type := if new_level < current_level then "decrease" else "maintain",
        reason := "2 consecutive scores <" ++ formatPct dec_thr,
        triggered_by := "answer",
        scaffolding_recommended := decide (new_level < current_level) }
    else
      { user_id := user_id, session_id := session_id,
        previous_level := current_level, new_level := current_level,
        adjustment_type := "maintain",
        reason := "Performance in acceptable range",
        triggered_by := "answer", scaffolding_recommended := false }

/-- An error record as consumed by `detect_struggle_area` in
`adk/scaffolding.py` (a dict with `question_type` and `score`). -/
structure ErrorRec where
  question_type : String
  score : ℚ
deriving Repr, DecidableEq

/-- The `question_type_mapping` dict of `detect_struggle_area`
(`adk/scaffolding.py` lines 126-146). -/
def question_type_mapping (qt : String) : Option String :=
  if qt = "definition" then some "definition"
  else if qt = "recognition" then some "definition"
  else if qt = "true_false" then some "definition"
  else if qt = "problem_solving" then some "process"
  else if qt = "breakdown" then some "process"
  else if qt = "comparison" then some "relationship"
  else if qt = "cause_effect" then some "relationship"
  else if qt = "pattern_recognition" then some "relationship"
  else if qt = "scenario" then some "application"
  else if qt = "case_study" then some "application"
  else if qt = "design" then some "application"
  else if qt = "integration" then some "application"
  else none

/-- The area one error is tallied under: its mapped area, or
`"definition"` when the question type is unmapped
(`if detected_area: counts[detected_area] += 1 else: counts["definition"] += 1`). -/
def struggleAreaOf (qt : String) : String :=
  (question_type_mapping qt).getD "definition"

/-- The value `struggle_counts[area]` holds after the counting loop of
`detect_struggle_area`, for each of the four area keys. -/
def struggleCount (recent_errors : List ErrorRec) (area : String) : ℕ :=
  recent_errors.countP (fun e => decide (struggleAreaOf e.question_type = area))

/-- `max(struggle_counts, key=struggle_counts.get)`: Python's `max` scans
the dict keys in insertion order ("definition", "process", "relationship",
"application"), replacing the best only on a strictly greater count. -/
def maxStruggleArea (count : String → ℕ) : String :=
  (["process", "relationship", "application"]).foldl
    (fun best a => if count best < count a then a else best) "definition"

/-- `detect_struggle_area(recent_errors)` from `adk/scaffolding.py`
lines 112-173. -/
def detect_struggle_area (recent_errors : List ErrorRec) : String :=
  if recent_errors.isEmpty then "definition"
  else
    let max_area := maxStruggleArea (struggleCount recent_errors)
    if struggleCount recent_errors max_area = 0 then "definition" else max_area

/-- One `concept_mastery` row, as read and written by
`StorageService.update_mastery` (`adk/storage.py` lines 369-424);
columns not touched by that method are omitted. -/
structure ConceptMasteryRow where
  mastery_level : ℚ
  times_seen : ℕ
  times_correct : ℕ
  last_seen : String
  knowledge_type : String
deriving Repr, DecidableEq

/-- `StorageService.update_mastery(concept_name, correct, knowledge_type)`
from `adk/storage.py` lines 369-424, as the transformation of the
`(user_id, concept_name)` row it selects and then updates or inserts.
`row` is the existing row (if any), `now` the timestamp it writes.
`COALESCE(NULLIF(?, ''), knowledge_type)` keeps the old knowledge type
when the argument is the empty string. -/
def update_mastery (row : Option ConceptMasteryRow) (correct : Bool)
    (knowledge_type : String) (now : String) : ConceptMasteryRow :=
  match row with
  | some r =>
    let times_seen := r.times_seen + 1
    let times_correct := r.times_correct + (if correct then 1 else 0)
    let mastery : ℚ := (times_correct : ℚ) / (times_seen : ℚ)
    { mastery_level := mastery, times_seen := times_seen,
      times_correct := times_correct, last_seen := now,
      knowledge_type := if knowledge_type = "" then r.knowledge_type else knowledge_type }
  | none =>
    { mastery_level := if correct then 1 else 0, times_seen := 1,
      times_correct := if correct then 1 else 0, last_seen := now,
      knowledge_type := knowledge_type }

/-- The `difficulty:last_adjustment` snapshot stored by
`_record_performance`. -/
structure LastAdjustment where
  type : String
  previous_level : ℤ
  new_level : ℤ
  reason : String
deriving Repr, DecidableEq

/-- The `difficulty:*` keys of the ADK session state, with the defaults
`_record_performance` supplies for absent keys already applied
(level 3, empty history, counters 0). -/
structure SessionState where
  level : ℤ
  history : List PerfRec
  scaffolding_active : Bool
  hints_used_current : ℕ
  consecutive_correct : ℕ
  consecutive_incorrect : ℕ
  last_adjustment : Option LastAdjustment
deriving Repr, DecidableEq

/-- The result dict returned by `_record_performance` (flattened). -/
structure RecordResult where
  status : String
  performance_recorded : Bool
  in_optimal_zone : Bool
  adjustment_type : String
  adjustment_previous_level : ℤ
  adjustment_new_level : ℤ
  adjustment_reason : String
  trend_avg_score : ℚ
  trend_direction : String
  trend_consecutive_correct : ℕ
deriving Repr, DecidableEq

/-- The `perf_record` dict `_record_performance` builds
(`difficulty.py` lines 509-521). -/
def mkPerfRecord (score : ℚ) (response_time_ms : ℤ) (hints_used : ℕ)
    (difficulty_level : ℤ) (concept_name question_type : String) : PerfRec :=
  { score := score, response_time_ms := response_time_ms,
    hints_used := hints_used, difficulty_level := difficulty_level,
    concept_tested := concept_name, question_type := question_type,
    in_optimal_zone := decide ((3/5 : ℚ) ≤ score ∧ score ≤ 17/20) }

/-- The session-state mutations of `_record_performance`
(`difficulty.py` lines 523-565): the truncated history is stored, the level
is overwritten when the adjustment changed it, the scaffolding flag follows
the recommendation, the hint counter resets, the streak counters update on
the 0.60 threshold, and the last-adjustment snapshot is stored. `history`
is the untruncated local list (new record already in front). -/
def record_performance_state (score : ℚ) (adjustment : DifficultyAdjustment)
    (history : List PerfRec) (st : SessionState) : SessionState :=
  { level := if adjustment.new_level ≠ st.level then adjustment.new_level else st.level,
    history := history.take 10,
    scaffolding_active := adjustment.scaffolding_recommended,
    hints_used_current := 0,
    consecutive_correct :=
      if (3/5 : ℚ) ≤ score then st.consecutive_correct + 1 else 0,
    consecutive_incorrect :=
      if (3/5 : ℚ) ≤ score then 0 else st.consecutive_incorrect + 1,
    last_adjustment := some
      { type := adjustment.adjustment_type,
        previous_level := adjustment.previous_level,
        new_level := adjustment.new_level,
        reason := adjustment.reason } }

/-- The success dict returned by `_record_performance`
(`difficulty.py` lines 570-585). -/
def record_performance_result (in_optimal_zone : Bool)
    (adjustment : DifficultyAdjustment) (trend : PerformanceTrend) :
    RecordResult :=
  { status := "success", performance_recorded := true,
    in_optimal_zone := in_optimal_zone,
    adjustment_type := adjustment.adjustment_type,
    adjustment_previous_level := adjustment.previous_level,
    adjustment_new_level := adjustment.new_level,
    adjustment_reason := adjustment.reason,
    trend_avg_score := trend.avg_score,
    trend_direction := trend.score_trend,
    trend_consecutive_correct := trend.consecutive_correct }

/-- `_record_performance(score, response_time_ms, hints_used, concept_name,
question_type, tool_context)` from `adk/difficulty.py` lines 480-585, on a
present session state (`tool_context is None` is the caller-contract error
branch and is not reachable from a state). The storage fetch used by the
complexity lookup is `fetch`. The local `history` list (after
`insert(0, perf_record)`, before the `[:10]` truncation that is stored) is
what the source feeds to both `calculate_difficulty_adjustment` and
`calculate_performance_trend`. -/
def record_performance_impl (score : ℚ) (response_time_ms : ℤ) (hints_used : ℕ)
    (concept_name question_type : String)
    (fetch : Except Unit (Option (Option ℤ)))
    (user_id session_id : String) (st : SessionState) :
    Except String (SessionState × RecordResult) :=
  let current_level := st.level
  let in_optimal_zone := decide ((3/5 : ℚ) ≤ score ∧ score ≤ 17/20)
  let perf_record :=
    mkPerfRecord score response_time_ms hints_used current_level concept_name question_type
  let history := perf_record :: st.history
  let adjustment :=
    calculate_difficulty_adjustment current_level history user_id session_id
      concept_name fetch
  match calculate_performance_trend history user_id 5 with
  | .error e => .error e
  | .ok trend =>
    .ok (record_performance_state score adjustment history st,
      record_performance_result in_optimal_zone adjustment trend)

/-! ## Helper lemmas -/

lemma streakCounts_fst_le_one (l : List ℚ) : (streakCounts l).1 ≤ 1 := by
  induction l with
  | nil => simp [streakCounts]
  | cons s rest ih =>
    by_cases h : (3/5 : ℚ) ≤ s
    · simp [streakCounts, h]
    · simpa [streakCounts, h] using ih

lemma streakCounts_fst_eq_one_iff (l : List ℚ) :
    (streakCounts l).1 = 1 ↔ ∃ s ∈ l, 3/5 ≤ s := by
  induction l with
  | nil => simp [streakCounts]
  | cons s rest ih =>
    by_cases h : (3/5 : ℚ) ≤ s
    · simp [streakCounts, h]
    · simp [streakCounts, h, ih]

lemma streakCounts_fst_eq_zero_iff (l : List ℚ) :
    (streakCounts l).1 = 0 ↔ ∀ s ∈ l, s < 3/5 := by
  induction l with
  | nil => simp [streakCounts]
  | cons s rest ih =>
    by_cases h : (3/5 : ℚ) ≤ s
    · simp [streakCounts, h]
    · simp [streakCounts, h, ih, not_le.mp h]

lemma streakCounts_snd_eq (l : List ℚ) :
    (streakCounts l).2 = (l.takeWhile (fun s => decide (s < 3/5))).length := by
  induction l with
  | nil => simp [streakCounts]
  | cons s rest ih =>
    by_cases h : (3/5 : ℚ) ≤ s
    · simp [streakCounts, h, List.takeWhile, not_lt.mpr h]
    · simp [streakCounts, h, List.takeWhile, not_le.mp h, ih]

lemma resolved_complexity_empty (fetch : Except Unit (Option (Option ℤ))) :
    resolved_complexity "" fetch = 3 := rfl

lemma increase_threshold_three : increase_threshold 3 = 17/20 := by
  norm_num [increase_threshold]

lemma decrease_threshold_three : decrease_threshold 3 = 1/2 := by
  norm_num [decrease_threshold]

/-- The insufficient-data branch of `calculate_difficulty_adjustment`. -/
lemma cda_eq_insufficient (current_level : ℤ) (records : List PerfRec)
    (user_id session_id concept_name : String)
    (fetch : Except Unit (Option (Option ℤ)))
    (h : records.length < 2) :
    calculate_difficulty_adjustment current_level records user_id session_id
        concept_name fetch =
      { user_id := user_id, session_id := session_id,
        previous_level := current_level, new_level := current_level,
        adjustment_type := "maintain",
        reason := "Insufficient data for adjustment",
        triggered_by := "answer", scaffolding_recommended := false } := by
  simp only [calculate_difficulty_adjustment]
  rw [if_pos h]

/-- The increase branch of `calculate_difficulty_adjustment`. -/
lemma cda_eq_increase (current_level : ℤ) (records : List PerfRec)
    (user_id session_id concept_name : String)
    (fetch : Except Unit (Option (Option ℤ)))
    (h2 : ¬ records.length < 2)
    (hcond : 3 ≤ records.length ∧ ∀ r ∈ records.take 3,
      increase_threshold (resolved_complexity concept_name fetch) ≤ r.score ∧
        r.hints_used = 0) :
    calculate_difficulty_adjustment current_level records user_id session_id
        concept_name fetch =
      { user_id := user_id, session_id := session_id,
        previous_level := current_level,
        new_level := min (current_level + 1) 6,
        adjustment_type :=
          if current_level < min (current_level + 1) 6 then "increase" else "maintain",
        reason := "3 consecutive scores ≥" ++
          formatPct (increase_threshold (resolved_complexity concept_name fetch)) ++
          " with no hints",
        triggered_by := "answer", scaffolding_recommended := false } := by
  simp only [calculate_difficulty_adjustment]
  rw [if_neg h2, if_pos hcond]

/-- The decrease branch of `calculate_difficulty_adjustment`. -/
lemma cda_eq_decrease (current_level : ℤ) (records : List PerfRec)
    (user_id session_id concept_name : String)
    (fetch : Except Unit (Option (Option ℤ)))
    (h2 : ¬ records.length < 2)
    (hni : ¬ (3 ≤ records.length ∧ ∀ r ∈ records.take 3,
      increase_threshold (resolved_complexity concept_name fetch) ≤ r.score ∧
        r.hints_used = 0))
    (hd : ∀ r ∈ records.take 2,
      r.score < decrease_threshold (resolved_complexity concept_name fetch)) :
    calculate_difficulty_adjustment current_level records user_id session_id
        concept_name fetch =
      { user_id := user_id, session_id := session_id,
        previous_level := current_level,
        new_level := max (current_level - 1) 1,
        adjustment_type :=
          if max (current_level - 1) 1 < current_level then "decrease" else "maintain",
        reason := "2 consecutive scores <" ++
          formatPct (decrease_threshold (resolved_complexity concept_name fetch)),
        triggered_by := "answer",
        scaffolding_recommended := decide (max (current_level - 1) 1 < current_level) } := by
  simp only [calculate_difficulty_adjustment]
  rw [if_neg h2, if_neg hni, if_pos hd]

/-! ## Claim theorems -/

/-- C1: for every `current_level` in `[1,6]`, every record list, and any
complexity lookup outcome, `calculate_difficulty_adjustment` returns a
`DifficultyAdjustment` whose `new_level` is in `[1,6]`. -/
theorem cda_new_level_in_range (current_level : ℤ) (records : List PerfRec)
    (user_id session_id concept_name : String)
    (fetch : Except Unit (Option (Option ℤ)))
    (hlo : 1 ≤ current_level) (hhi : current_level ≤ 6) :
    1 ≤ (calculate_difficulty_adjustment current_level records user_id session_id
          concept_name fetch).new_level ∧
      (calculate_difficulty_adjustment current_level records user_id session_id
          concept_name fetch).new_level ≤ 6 := by
  simp only [calculate_difficulty_adjustment]
  split_ifs <;> constructor <;> simp <;> omega

theorem cda_new_level_in_range_witness :
    1 ≤ (calculate_difficulty_adjustment 3 [] "u" "s" "" (.ok none)).new_level ∧
      (calculate_difficulty_adjustment 3 [] "u" "s" "" (.ok none)).new_level ≤ 6 :=
  cda_new_level_in_range 3 [] "u" "s" "" (.ok none) (by norm_num) (by norm_num)

/-- C5: with fewer than 2 records, `calculate_difficulty_adjustment` always
returns the full "maintain" record with unchanged level and reason
"Insufficient data for adjustment", for any level, concept and lookup
outcome (it is total: no error is raised). -/
theorem cda_insufficient_data (current_level : ℤ) (records : List PerfRec)
    (user_id session_id concept_name : String)
    (fetch : Except Unit (Option (Option ℤ)))
    (h : records.length < 2) :
    calculate_difficulty_adjustment current_level records user_id session_id
        concept_name fetch =
      { user_id := user_id, session_id := session_id,
        previous_level := current_level, new_level := current_level,
        adjustment_type := "maintain",
        reason := "Insufficient data for adjustment",
        triggered_by := "answer", scaffolding_recommended := false } :=
  cda_eq_insufficient current_level records user_id session_id concept_name fetch h

theorem cda_insufficient_data_witness :
    calculate_difficulty_adjustment 4 [sampleRec (9/10)] "u" "s" "" (.ok none) =
      { user_id := "u", session_id := "s",
        previous_level := 4, new_level := 4,
        adjustment_type := "maintain",
        reason := "Insufficient data for adjustment",
        triggered_by := "answer", scaffolding_recommended := false } :=
  cda_insufficient_data 4 [sampleRec (9/10)] "u" "s" "" (.ok none) (by norm_num)

/-- C2: for every `current_level` in `[1,6]`, if the 3 most recent records
all have score ≥ 0.85 (the increase threshold at default complexity 3,
i.e. empty concept name) and `hints_used = 0`, the adjustment has
`new_level = min(current_level+1, 6)`; at level 3 the type is "increase"
with new level 4, and at level 6 the type is "maintain" with new level 6
(saturation). -/
theorem cda_increase_rule (current_level : ℤ) (records : List PerfRec)
    (user_id session_id : String)
    (fetch : Except Unit (Option (Option ℤ)))
    (hlo : 1 ≤ current_level) (hhi : current_level ≤ 6)
    (hlen : 3 ≤ records.length)
    (hq : ∀ r ∈ records.take 3, 17/20 ≤ r.score ∧ r.hints_used = 0) :
    (calculate_difficulty_adjustment current_level records user_id session_id
        "" fetch).new_level = min (current_level + 1) 6 ∧
    (current_level = 3 →
      (calculate_difficulty_adjustment current_level records user_id session_id
          "" fetch).adjustment_type = "increase" ∧
        (calculate_difficulty_adjustment current_level records user_id session_id
          "" fetch).new_level = 4) ∧
    (current_level = 6 →
      (calculate_difficulty_adjustment current_level records user_id session_id
          "" fetch).adjustment_type = "maintain" ∧
        (calculate_difficulty_adjustment current_level records user_id session_id
          "" fetch).new_level = 6) := by
  have heq := cda_eq_increase current_level records user_id session_id "" fetch
    (by omega)
    (by
      refine ⟨hlen, ?_⟩
      intro r hr
      rw [resolved_complexity_empty, increase_threshold_three]
      exact hq r hr)
  rw [heq]
  refine ⟨rfl, ?_, ?_⟩
  · rintro rfl
    norm_num
  · rintro rfl
    norm_num

theorem cda_increase_rule_witness :
    (calculate_difficulty_adjustment 3
        [sampleRec (9/10), sampleRec (9/10), sampleRec (9/10)] "u" "s" ""
        (.ok none)).adjustment_type = "increase" ∧
      (calculate_difficulty_adjustment 3
        [sampleRec (9/10), sampleRec (9/10), sampleRec (9/10)] "u" "s" ""
        (.ok none)).new_level = 4 :=
  (cda_increase_rule 3 [sampleRec (9/10), sampleRec (9/10), sampleRec (9/10)]
    "u" "s" (.ok none) (by norm_num) (by norm_num) (by norm_num)
    (by
      intro r hr
      simp only [List.take, List.mem_cons, List.not_mem_nil, or_false] at hr
      rcases hr with rfl | rfl | rfl <;> exact ⟨by norm_num [sampleRec], rfl⟩)).2.1 rfl

/-- C3 (amended): given exactly 2 records with score < 0.50 (default
complexity 3, concept name empty), the adjustment has
`new_level = max(current_level-1, 1)`; for `current_level` in `[2,6]` the
type is "decrease" with `scaffolding_recommended = True` and
`new_level = current_level-1`, but at `current_level = 1` the clamp leaves
the level unchanged, so the type is "maintain" and
`scaffolding_recommended = False`. -/
theorem cda_decrease_rule (current_level : ℤ) (r1 r2 : PerfRec)
    (user_id session_id : String) (fetch : Except Unit (Option (Option ℤ)))
    (hlo : 1 ≤ current_level) (hhi : current_level ≤ 6)
    (h1 : r1.score < 1/2) (h2 : r2.score < 1/2) :
    (calculate_difficulty_adjustment current_level [r1, r2] user_id session_id
        "" fetch).new_level = max (current_level - 1) 1 ∧
    (2 ≤ current_level →
      (calculate_difficulty_adjustment current_level [r1, r2] user_id session_id
          "" fetch).adjustment_type = "decrease" ∧
        (calculate_difficulty_adjustment current_level [r1, r2] user_id session_id
          "" fetch).scaffolding_recommended = true ∧
        (calculate_difficulty_adjustment current_level [r1, r2] user_id session_id
          "" fetch).new_level = current_level - 1) ∧
    (current_level = 1 →
      (calculate_difficulty_adjustment current_level [r1, r2] user_id session_id
          "" fetch).adjustment_type = "maintain" ∧
        (calculate_difficulty_adjustment current_level [r1, r2] user_id session_id
          "" fetch).scaffolding_recommended = false ∧
        (calculate_difficulty_adjustment current_level [r1, r2] user_id session_id
          "" fetch).new_level = 1) := by
  have heq := cda_eq_decrease current_level [r1, r2] user_id session_id "" fetch
    (by norm_num)
    (by rintro ⟨h3, -⟩; simp at h3)
    (by
      intro r hr
      simp only [List.take, List.mem_cons, List.not_mem_nil, or_false] at hr
      rw [resolved_complexity_empty, decrease_threshold_three]
      rcases hr with rfl | rfl
      · exact h1
      · exact h2)
  rw [heq]
  refine ⟨rfl, fun hc2 => ⟨?_, ?_, ?_⟩, fun hc1 => ?_⟩
  · show (if max (current_level - 1) 1 < current_level then "decrease" else "maintain")
        = "decrease"
    rw [if_pos (by omega)]
  · show decide (max (current_level - 1) 1 < current_level) = true
    simp only [decide_eq_true_eq]
    omega
  · show max (current_level - 1) 1 = current_level - 1
    omega
  · subst hc1
    refine ⟨?_, ?_, ?_⟩
    · show (if max (1 - 1 : ℤ) 1 < 1 then "decrease" else "maintain") = "maintain"
      rw [if_neg (by omega)]
    · show decide (max (1 - 1 : ℤ) 1 < 1) = false
      simp
    · show max (1 - 1 : ℤ) 1 = 1
      norm_num

theorem cda_decrease_rule_witness :
    (calculate_difficulty_adjustment 3 [sampleRec (2/5), sampleRec (2/5)]
        "u" "s" "" (.ok none)).adjustment_type = "decrease" ∧
      (calculate_difficulty_adjustment 3 [sampleRec (2/5), sampleRec (2/5)]
        "u" "s" "" (.ok none)).scaffolding_recommended = true ∧
      (calculate_difficulty_adjustment 3 [sampleRec (2/5), sampleRec (2/5)]
        "u" "s" "" (.ok none)).new_level = 3 - 1 :=
  (cda_decrease_rule 3 (sampleRec (2/5)) (sampleRec (2/5)) "u" "s" (.ok none)
    (by norm_num) (by norm_num) (by norm_num [sampleRec])
    (by norm_num [sampleRec])).2.1 (by norm_num)

/-- C3 (counterexample to the claim as stated): at `current_level = 1`,
two records with score 0.40 yield `adjustment_type = "maintain"` (not
"decrease") and `scaffolding_recommended = False` (not `True`). -/
theorem cda_decrease_at_floor_counterexample :
    (calculate_difficulty_adjustment 1 [sampleRec (2/5), sampleRec (2/5)]
        "u" "s" "" (.ok none)).adjustment_type = "maintain" ∧
      (calculate_difficulty_adjustment 1 [sampleRec (2/5), sampleRec (2/5)]
        "u" "s" "" (.ok none)).adjustment_type ≠ "decrease" ∧
      (calculate_difficulty_adjustment 1 [sampleRec (2/5), sampleRec (2/5)]
        "u" "s" "" (.ok none)).scaffolding_recommended = false := by
  have heq := cda_eq_decrease 1 [sampleRec (2/5), sampleRec (2/5)] "u" "s" ""
    (.ok none)
    (by norm_num)
    (by rintro ⟨h3, -⟩; simp at h3)
    (by
      intro r hr
      simp only [List.take, List.mem_cons, List.not_mem_nil, or_false] at hr
      rcases hr with rfl | rfl <;>
        norm_num [sampleRec, resolved_complexity_empty, decrease_threshold_three])
  rw [heq]
  refine ⟨by norm_num, ?_, by norm_num⟩
  norm_num
  decide

/-- Inversion for the streak fields: a successfully computed trend carries
exactly the `streakCounts` of the scanned scores. -/
lemma trend_streaks_eq (records : List PerfRec) (user_id : String)
    (window_size : ℕ) (t : PerformanceTrend)
    (h : calculate_performance_trend records user_id window_size = .ok t) :
    t.consecutive_correct
        = (streakCounts ((records.take window_size).map PerfRec.score)).1 ∧
      t.consecutive_incorrect
        = (streakCounts ((records.take window_size).map PerfRec.score)).2 := by
  simp only [calculate_performance_trend] at h
  by_cases hemp : records.isEmpty
  · rw [if_pos hemp] at h
    obtain rfl : records = [] := by simpa [List.isEmpty_iff] using hemp
    injection h with h
    subst h
    simp [streakCounts]
  · rw [if_neg hemp] at h
    by_cases hlen : ((records.take window_size).map PerfRec.score).length = 0
    · rw [if_pos hlen] at h
      simp at h
    · rw [if_neg hlen] at h
      injection h with h
      subst h
      exact ⟨rfl, rfl⟩

/-- C4 (amended): scanning from the most recent record, the loop counts the
current run of scores below 0.60 into `consecutive_incorrect` and stops as
soon as it meets a score ≥ 0.60, having set `consecutive_correct` to 1; so
`consecutive_correct` is 1 exactly when some scanned score is ≥ 0.60 (never
the length k of the leading run of high scores), and `consecutive_incorrect`
is the length of the leading run of scores below 0.60. -/
theorem trend_streak_semantics (records : List PerfRec) (user_id : String)
    (window_size : ℕ) (t : PerformanceTrend)
    (h : calculate_performance_trend records user_id window_size = .ok t) :
    t.consecutive_correct
        = (if ∃ r ∈ records.take window_size, 3/5 ≤ r.score then 1 else 0) ∧
      t.consecutive_incorrect
        = (((records.take window_size).map PerfRec.score).takeWhile
            (fun s => decide (s < 3/5))).length := by
  obtain ⟨hc, hi⟩ := trend_streaks_eq records user_id window_size t h
  constructor
  · rw [hc]
    by_cases hex : ∃ r ∈ records.take window_size, 3/5 ≤ r.score
    · rw [if_pos hex, streakCounts_fst_eq_one_iff]
      obtain ⟨r, hr, hs⟩ := hex
      exact ⟨r.score, List.mem_map_of_mem _ hr, hs⟩
    · rw [if_neg hex, streakCounts_fst_eq_zero_iff]
      intro s hs
      obtain ⟨r, hr, rfl⟩ := List.mem_map.mp hs
      push_neg at hex
      exact hex r hr
  · rw [hi, streakCounts_snd_eq]

/-- The trend computed from the single record `sampleRec (7/10)`. -/
def sampleTrend : PerformanceTrend :=
  { user_id := "u", window_size := 1, avg_score := 7/10,
    score_trend := "stable", avg_response_time_ms := 10000,
    time_trend := "stable", avg_hints_used := 0, consecutive_correct := 1,
    consecutive_incorrect := 0, optimal_zone_ratio := 1 }

lemma sampleTrend_eq :
    calculate_performance_trend [sampleRec (7/10)] "u" 5 = .ok sampleTrend := by
  norm_num [calculate_performance_trend, sampleTrend, sampleRec, streakCounts,
    scoreTrendOf, timeTrendOf, pyInt]

theorem trend_streak_semantics_witness :
    sampleTrend.consecutive_correct = 1 ∧ sampleTrend.consecutive_incorrect = 0 := by
  obtain ⟨hc, hi⟩ :=
    trend_streak_semantics [sampleRec (7/10)] "u" 5 sampleTrend sampleTrend_eq
  constructor
  · rw [hc, if_pos ⟨sampleRec (7/10), by simp, by norm_num [sampleRec]⟩]
  · rw [hi]
    have hb : (decide ((sampleRec (7/10)).score < 3/5)) = false := by
      norm_num [sampleRec]
    simp [List.takeWhile_cons, hb]

/-- C4 (counterexample to the claim as stated): for the window
[0.70, 0.70, 0.40] the two most recent scores are ≥ 0.60 followed by one
below 0.60 (k = 2), yet `consecutive_correct` is 1, not 2. -/
theorem trend_streak_counterexample :
    (Except.toOption (calculate_performance_trend
        [sampleRec (7/10), sampleRec (7/10), sampleRec (2/5)] "u" 5)).map
        PerformanceTrend.consecutive_correct = some 1 ∧
      (Except.toOption (calculate_performance_trend
        [sampleRec (7/10), sampleRec (7/10), sampleRec (2/5)] "u" 5)).map
        PerformanceTrend.consecutive_correct ≠ some 2 := by
  constructor <;>
    norm_num [calculate_performance_trend, streakCounts, sampleRec, Except.toOption]

/-- C10: for every record list and window size on which the trend is
computed, `consecutive_correct` is at most 1: it is 1 exactly when some
scanned score is ≥ 0.60 (that is, at or after the leading run of failures
there is a passing score) and 0 exactly when every scanned score is below
0.60 (in particular on the empty list). -/
theorem trend_consecutive_correct_le_one (records : List PerfRec)
    (user_id : String) (window_size : ℕ) (t : PerformanceTrend)
    (h : calculate_performance_trend records user_id window_size = .ok t) :
    t.consecutive_correct ≤ 1 ∧
      (t.consecutive_correct = 1 ↔ ∃ r ∈ records.take window_size, 3/5 ≤ r.score) ∧
      (t.consecutive_correct = 0 ↔ ∀ r ∈ records.take window_size, r.score < 3/5) := by
  obtain ⟨hc, -⟩ := trend_streaks_eq records user_id window_size t h
  rw [hc]
  refine ⟨streakCounts_fst_le_one _, ?_, ?_⟩
  · rw [streakCounts_fst_eq_one_iff]
    constructor
    · rintro ⟨s, hs, hge⟩
      obtain ⟨r, hr, rfl⟩ := List.mem_map.mp hs
      exact ⟨r, hr, hge⟩
    · rintro ⟨r, hr, hge⟩
      exact ⟨r.score, List.mem_map_of_mem _ hr, hge⟩
  · rw [streakCounts_fst_eq_zero_iff]
    constructor
    · intro hall r hr
      exact hall r.score (List.mem_map_of_mem _ hr)
    · rintro hall s hs
      obtain ⟨r, hr, rfl⟩ := List.mem_map.mp hs
      exact hall r hr

theorem trend_consecutive_correct_le_one_witness :
    sampleTrend.consecutive_correct ≤ 1 ∧
      (sampleTrend.consecutive_correct = 1 ↔
        ∃ r ∈ ([sampleRec (7/10)] : List PerfRec).take 5, 3/5 ≤ r.score) ∧
      (sampleTrend.consecutive_correct = 0 ↔
        ∀ r ∈ ([sampleRec (7/10)] : List PerfRec).take 5, r.score < 3/5) :=
  trend_consecutive_correct_le_one [sampleRec (7/10)] "u" 5 sampleTrend sampleTrend_eq

/-- C6: `get_concept_complexity` returns exactly 3 whenever the lookup does
not produce a row with a non-NULL complexity: on a thrown exception, on a
missing row, and on a stored NULL complexity; being a total function of the
lookup outcome, no failure propagates to the caller. -/
theorem get_concept_complexity_default_on_failure
    (fetch : Except Unit (Option (Option ℤ)))
    (h : fetch = .error () ∨ fetch = .ok none ∨ fetch = .ok (some none)) :
    get_concept_complexity fetch = 3 := by
  rcases h with rfl | rfl | rfl <;> rfl

theorem get_concept_complexity_default_on_failure_witness :
    get_concept_complexity (.error ()) = 3 :=
  get_concept_complexity_default_on_failure (.error ()) (Or.inl rfl)

/-- C7: after every `update_mastery` call — from any prior row state, hence
after any sequence of calls for a (user, concept) pair — the stored row has
`times_seen > 0` and `mastery_level` exactly equal to
`times_correct / times_seen`. -/
theorem update_mastery_ratio_invariant (row : Option ConceptMasteryRow)
    (correct : Bool) (knowledge_type now : String) :
    0 < (update_mastery row correct knowledge_type now).times_seen ∧
      (update_mastery row correct knowledge_type now).mastery_level =
        ((update_mastery row correct knowledge_type now).times_correct : ℚ) /
          ((update_mastery row correct knowledge_type now).times_seen : ℚ) := by
  rcases row with _ | r
  · cases correct <;> simp [update_mastery]
  · exact ⟨Nat.succ_pos _, rfl⟩

/-- Each of the four area counts is at most the count of the area Python's
`max` over the counts dict picks (insertion order
definition, process, relationship, application; strict improvement). -/
lemma maxStruggleArea_count_le (count : String → ℕ) :
    ∀ a ∈ (["definition", "process", "relationship", "application"] : List String),
      count a ≤ count (maxStruggleArea count) := by
  intro a ha
  simp only [maxStruggleArea, List.foldl_cons, List.foldl_nil]
  fin_cases ha <;> split_ifs <;> omega

/-- C8: `detect_struggle_area` tallies each error under the area its
question type maps to (unmapped types under "definition") and returns an
area of maximal count; it returns "definition" on the empty list and
"relationship" whenever every error's question type is "comparison" or
"cause_effect". -/
theorem detect_struggle_area_spec (recent_errors : List ErrorRec) (area : String)
    (hne : recent_errors ≠ [])
    (ha : area ∈ (["definition", "process", "relationship", "application"] : List String)) :
    detect_struggle_area [] = "definition" ∧
      struggleCount recent_errors area ≤
        struggleCount recent_errors (detect_struggle_area recent_errors) ∧
      ((∀ e ∈ recent_errors,
          e.question_type = "comparison" ∨ e.question_type = "cause_effect") →
        detect_struggle_area recent_errors = "relationship") := by
  have hemp : ¬ (recent_errors.isEmpty = true) := by
    simpa [List.isEmpty_iff] using hne
  refine ⟨rfl, ?_, ?_⟩
  · simp only [detect_struggle_area]
    rw [if_neg hemp]
    by_cases hz :
        struggleCount recent_errors
          (maxStruggleArea (struggleCount recent_errors)) = 0
    · rw [if_pos hz]
      have hle := maxStruggleArea_count_le (struggleCount recent_errors) area ha
      omega
    · rw [if_neg hz]
      exact maxStruggleArea_count_le (struggleCount recent_errors) area ha
  · intro hall
    have hmapped : ∀ e ∈ recent_errors,
        struggleAreaOf e.question_type = "relationship" := by
      intro e he
      rcases hall e he with h | h <;> rw [h] <;> rfl
    have hrel : struggleCount recent_errors "relationship" = recent_errors.length := by
      rw [struggleCount, List.countP_eq_length]
      intro e he
      simp [hmapped e he]
    have hdef : struggleCount recent_errors "definition" = 0 := by
      rw [struggleCount, List.countP_eq_zero]
      intro e he
      simp [hmapped e he]
    have hpro : struggleCount recent_errors "process" = 0 := by
      rw [struggleCount, List.countP_eq_zero]
      intro e he
      simp [hmapped e he]
    have happ : struggleCount recent_errors "application" = 0 := by
      rw [struggleCount, List.countP_eq_zero]
      intro e he
      simp [hmapped e he]
    have hpos : 0 < recent_errors.length := List.length_pos.mpr hne
    have hmax : maxStruggleArea (struggleCount recent_errors) = "relationship" := by
      simp [maxStruggleArea, List.foldl_cons, List.foldl_nil, hdef, hpro, hrel,
        happ, hpos]
    simp only [detect_struggle_area]
    rw [if_neg hemp, hmax, hrel, if_neg (by omega)]

theorem detect_struggle_area_spec_witness :
    detect_struggle_area
        [⟨"comparison", (2/5 : ℚ)⟩, ⟨"cause_effect", (1/4 : ℚ)⟩] = "relationship" :=
  (detect_struggle_area_spec
    [⟨"comparison", (2/5 : ℚ)⟩, ⟨"cause_effect", (1/4 : ℚ)⟩] "definition"
    (by simp) (by simp)).2.2 (by simp)

/-- The trend computation never fails on a nonempty history with the
window size 5 used by `_record_performance`. -/
lemma trend_cons_ok (r : PerfRec) (rest : List PerfRec) (user_id : String) :
    ∃ t, calculate_performance_trend (r :: rest) user_id 5 = .ok t := by
  have hlen : ¬ ((((r :: rest).take 5).map PerfRec.score).length = 0) := by
    simp [List.length_take]
  simp only [calculate_performance_trend]
  rw [if_neg (by simp : ¬ ((r :: rest).isEmpty = true)), if_neg hlen]
  exact ⟨_, rfl⟩

/-- C9: every `_record_performance` call on a session state succeeds and
leaves a stored `difficulty:history` of length at most 10 whose head is the
record just created, regardless of the prior history length. -/
theorem record_performance_history_inv (score : ℚ) (response_time_ms : ℤ)
    (hints_used : ℕ) (concept_name question_type : String)
    (fetch : Except Unit (Option (Option ℤ))) (user_id session_id : String)
    (st : SessionState) :
    ∃ st1 res,
      record_performance_impl score response_time_ms hints_used concept_name
          question_type fetch user_id session_id st = .ok (st1, res) ∧
        st1.history.length ≤ 10 ∧
        st1.history.head? = some (mkPerfRecord score response_time_ms hints_used
          st.level concept_name question_type) := by
  obtain ⟨t, ht⟩ := trend_cons_ok
    (mkPerfRecord score response_time_ms hints_used st.level concept_name
      question_type) st.history user_id
  refine ⟨record_performance_state score
      (calculate_difficulty_adjustment st.level
        (mkPerfRecord score response_time_ms hints_used st.level concept_name
          question_type :: st.history) user_id session_id concept_name fetch)
      (mkPerfRecord score response_time_ms hints_used st.level concept_name
        question_type :: st.history) st,
    record_performance_result (decide ((3/5 : ℚ) ≤ score ∧ score ≤ 17/20))
      (calculate_difficulty_adjustment st.level
        (mkPerfRecord score response_time_ms hints_used st.level concept_name
          question_type :: st.history) user_id session_id concept_name fetch) t,
    ?_, ?_, ?_⟩
  · simp only [record_performance_impl]
    rw [ht]
  · simp [record_performance_state]
  · rfl

end LearningAgents
